import Mathlib

/-!
Verification of the durable-orchestration backend (podcast transcription and
retrieval-augmented query) against its specification.

The Python source expresses orchestrators as generator functions driven by the
Azure Durable Functions replay runtime.  We embed each orchestrator as a pure
Lean function of an explicit environment: the environment supplies exactly the
values the runtime feeds the orchestrator out of the history log (activity
results and the history-derived `current_utc_datetime` at each of its reads).
JSON-serialized payloads (`json.dumps` of dicts) are modelled structurally as
`JValue` objects; `json.dumps` is injective on the payloads the code builds, so
nothing is lost by keeping the dict structure.  Times are in seconds
(`timedelta(hours=2)` = 7200 s, `timedelta(seconds=10)` = 10 s).
-/

namespace PodcastBackend

/-- JSON-like payload values exchanged with activities (Python dicts / strings /
None as serialized by `json.dumps`). -/
inductive JValue where
  | jnull
  | jstr (s : String)
  | jobj (fields : List (String × JValue))

/-- Python truthiness as used in `if not x:` tests of the source:
`None` and the empty string and the empty dict are falsy. -/
def JValue.truthy : JValue → Bool
  | .jnull => false
  | .jstr s => s != ""
  | .jobj fields => !fields.isEmpty

/-- The dict `{"error": str(e)}` returned from the orchestrators' `except` blocks. -/
def errObj (msg : String) : JValue := .jobj [("error", .jstr msg)]

/-- Outcome of one activity call as delivered by the history log: either an
ActivityCompleted event carrying a result value, or a terminal ActivityFailed
event (the activity raised, after any retry policy was exhausted), which the
replay runtime re-raises at the orchestrator's `yield`. -/
inductive ActResult where
  | ok (value : JValue)
  | failed (error : String)

/-- The `df.RetryOptions` object constructed by `rag_query_orchestrator`. -/
structure RetryOptions where
  first_retry_interval_in_milliseconds : Nat
  max_number_of_attempts : Nat

/-- One action emitted by an orchestrator during a replay: schedule an activity
(`context.call_activity`), schedule it under a retry policy
(`context.call_activity_with_retry`), or create a durable timer
(`context.create_timer`). -/
inductive Action where
  | callActivity (name : String) (input : JValue)
  | callActivityWithRetry (name : String) (retry : RetryOptions) (input : JValue)
  | createTimer (fireAt : Nat)

/-- Terminal outcome of an orchestrator instance: a `return` completes the
instance with that output; an uncaught raise fails it. -/
inductive Outcome where
  | completed (output : JValue)
  | failed (error : String)

/-- `get_index_name` from `function_app.py`. -/
def get_index_name (podcast_id : String) : String := podcast_id ++ "-index"

/-- Replay environment of `transcribe_and_index_orchestrator`: the orchestration
input plus everything the history log supplies at the orchestrator's suspension
points and clock reads.  `clockCond n` / `clockTimer n` are the values of
`context.current_utc_datetime` at the n-th evaluation of the `while` condition
and at the n-th computation of `next_check` respectively (separate reads in the
source, separated by a `yield`, so the history may supply different values). -/
structure OrchEnv where
  file_url : String
  podcast_id : String
  start_result : ActResult
  check_result : Nat → ActResult
  create_index_result : ActResult
  index_transcript_result : ActResult
  clock0 : Nat
  clockCond : Nat → Nat
  clockTimer : Nat → Nat

/-- The polling `while` loop of `transcribe_and_index_orchestrator` (lines
117-131 of `function_app.py`).  `n` is the loop-iteration index, `acc` the
actions emitted so far (newest first), `fuel` bounds the number of iterations
of the model (the source loop is bounded only by its clock condition); `none`
means the fuel ran out before the loop terminated. -/
def pollLoop (env : OrchEnv) (index_name : String) (tid : JValue) (expiry : Nat)
    (n : Nat) (acc : List Action) (fuel : Nat) : Option (List Action × Outcome) :=
  match fuel with
  | 0 => none
  | fuel + 1 =>
    if env.clockCond n < expiry then
      let acc1 := Action.callActivity "check_transcription" tid :: acc
      match env.check_result n with
      | .failed e => some (acc1.reverse, .completed (errObj e))
      | .ok transcript =>
        if transcript.truthy then
          let acc2 := Action.callActivity "create_search_index" (JValue.jstr index_name) :: acc1
          match env.create_index_result with
          | .failed e => some (acc2.reverse, .completed (errObj e))
          | .ok _ =>
            let acc3 := Action.callActivity "index_transcript"
              (JValue.jobj [("index_name", JValue.jstr index_name),
                            ("transcript", transcript)]) :: acc2
            match env.index_transcript_result with
            | .failed e => some (acc3.reverse, .completed (errObj e))
            | .ok _ =>
              some (acc3.reverse,
                .completed (JValue.jobj [("index_name", JValue.jstr index_name)]))
        else
          pollLoop env index_name tid expiry (n + 1)
            (Action.createTimer (env.clockTimer n + 10) :: acc1) fuel
    else
      some (acc.reverse, .completed JValue.jnull)

/-- `transcribe_and_index_orchestrator` from `function_app.py`, as the function
from its replay environment to the emitted action trace and terminal outcome.
The `try`/`except` of the source catches every exception (including activity
failures re-raised at a `yield` and the explicit
`raise Exception("Transcription could not be started")`) and `return`s the dict
`{"error": str(e)}`, so every caught error completes the instance with that
payload.  Falling off the end of the loop returns `None`. -/
def transcribe_and_index_orchestrator (env : OrchEnv) (fuel : Nat) :
    Option (List Action × Outcome) :=
  let index_name := get_index_name env.podcast_id
  let startAct := Action.callActivity "start_transcription" (JValue.jstr env.file_url)
  match env.start_result with
  | .failed e => some ([startAct], .completed (errObj e))
  | .ok tid =>
    if tid.truthy then
      pollLoop env index_name tid (env.clock0 + 7200) 0 [startAct] fuel
    else
      some ([startAct], .completed (errObj "Transcription could not be started"))

/-- The retry options built in `rag_query_orchestrator` (lines 149-152 of
`function_app.py`). -/
def rag_retry_options : RetryOptions :=
  { first_retry_interval_in_milliseconds := 3000
    max_number_of_attempts := 3 }

/-- Replay environment of `rag_query_orchestrator`: the orchestration input
(`query` is a string; `filters` and `index_name` are read with `.get` and may
be null) and the history-supplied outcome of the single
`process_rag_query` call after its retry policy is resolved. -/
structure RagEnv where
  query : String
  filters : JValue
  index_name : JValue
  rag_result : ActResult

/-- `rag_query_orchestrator` from `function_app.py`: serializes the query data,
calls `process_rag_query` under `rag_retry_options`, returns the answer; its
`except` block catches an activity failure and returns `{"error": str(e)}`. -/
def rag_query_orchestrator (env : RagEnv) : List Action × Outcome :=
  let query_data : JValue :=
    .jobj [("query", .jstr env.query), ("filters", env.filters),
           ("index_name", env.index_name)]
  let acts : List Action :=
    [Action.callActivityWithRetry "process_rag_query" rag_retry_options query_data]
  match env.rag_result with
  | .ok answer => (acts, .completed answer)
  | .failed e => (acts, .completed (errObj e))

/-- Modelled from the spec: the Activity Executor's retry loop lives in the
Azure Durable Functions runtime, not under `src/`; the spec says it "retries up
to max_attempts with the base backoff interval (fixed, not exponential) before
surfacing ActivityFailed".  `attempt i` tells whether the i-th invocation of
the activity succeeds; given a budget of `maxAttempts` invocations, the result
is the number of invocations actually made and whether one succeeded (surfacing
ActivityFailed corresponds to the second component being `false`). -/
def retryRun (attempt : Nat → Bool) : Nat → Nat × Bool
  | 0 => (0, false)
  | maxAttempts + 1 =>
    if attempt 0 then (1, true)
    else
      let rest := retryRun (fun i => attempt (i + 1)) maxAttempts
      (rest.1 + 1, rest.2)

/-! HTTP client endpoints.  Each handler is modelled as a function from the
request (and an environment supplying the runtime-generated values it uses:
wall-clock timestamp, storage URL, instance id) to the HTTP response together
with the list of side effects it performed, in order. -/

/-- Side effects a client endpoint can perform. -/
inductive ClientEffect where
  | storageUpload (container_name : String)
  | startNew (orchestrator : String) (input : JValue)

/-- Responses a client endpoint can produce: an explicit `func.HttpResponse`
with a JSON body and status code, the runtime-built check-status response for a
started instance, or the bare dict returned from `upload_podcast`'s `except`
path. -/
inductive HandlerResponse where
  | http (body : JValue) (status_code : Nat)
  | checkStatus (instance_id : String)
  | errorDict (body : JValue)

/-- Request to `upload_podcast`: `req.files.get('file')`, `none` when the
multipart field is absent. -/
structure UploadRequest where
  file : Option String

/-- Runtime values consumed by `upload_podcast` on its success path:
`datetime.utcnow().strftime('%Y%m%d-%H%M%S')`, the URL returned by
`upload_to_blob_storage`, and the instance id returned by `start_new`. -/
structure UploadEnv where
  utcnow : String
  file_url : String
  instance_id : String

/-- `upload_podcast` from `function_app.py`: with no file it returns a 400
response before creating the storage service or starting any orchestration;
otherwise it uploads the file to a per-podcast container and starts
`transcribe_and_index_orchestrator`. -/
def upload_podcast (env : UploadEnv) (req : UploadRequest) :
    HandlerResponse × List ClientEffect :=
  match req.file with
  | none => (.http (errObj "No file uploaded") 400, [])
  | some _ =>
    let podcast_id := "podcast-" ++ env.utcnow
    (.checkStatus env.instance_id,
     [ClientEffect.storageUpload podcast_id,
      ClientEffect.startNew "transcribe_and_index_orchestrator"
        (.jobj [("file_url", .jstr env.file_url),
                ("podcast_id", .jstr podcast_id)])])

/-- Python `dict.get(key)`: the stored value, or `None` when the key is absent. -/
def dictGet (d : List (String × JValue)) (key : String) : JValue :=
  match d.find? (fun kv => kv.1 == key) with
  | some kv => kv.2
  | none => .jnull

/-- Request to `query_podcasts`: the JSON object parsed by `req.get_json()`,
`none` when parsing raises (that exception is caught and mapped to a 500). -/
structure QueryRequest where
  body : Option (List (String × JValue))

/-- Runtime values consumed by `query_podcasts`: the instance id returned by
`start_new`, and the message of the exception on the parse-failure path. -/
structure QueryEnv where
  instance_id : String
  parse_error : String

/-- `query_podcasts` from `function_app.py`: with a missing/empty `query` field
it returns a 400 response before starting any orchestration; otherwise it
starts `rag_query_orchestrator` with the serialized query data. -/
def query_podcasts (env : QueryEnv) (req : QueryRequest) :
    HandlerResponse × List ClientEffect :=
  match req.body with
  | none => (.http (errObj env.parse_error) 500, [])
  | some body =>
    let query := dictGet body "query"
    let index_name := dictGet body "index_name"
    if query.truthy then
      let filters := dictGet body "filters"
      (.checkStatus env.instance_id,
       [ClientEffect.startNew "rag_query_orchestrator"
          (.jobj [("query", query), ("filters", filters),
                  ("index_name", index_name)])])
    else
      (.http (errObj "No query provided") 400, [])

/-! `BatchTranscriber.get_transcription_result` from
`services/batch_transcriber.py`.  The provider responses fetched over HTTP are
supplied by an environment; transport-level errors of those fetches
(`raise_for_status`) would fail the whole activity before this decision logic
runs and are outside the model. -/

/-- The provider's transcription-status document as read by
`get_transcription_result`: its `status` field, the `properties.error.message`
used when the status is "Failed", and the `links.files` URL (`none` when the
key is absent; the source also treats an empty string as missing). -/
structure TranscriptionStatusResponse where
  status : String
  error_message : String
  files_link : Option String

/-- One entry of the `values` array of the files listing; `contentUrl` from its
`links`, `none` when absent. -/
structure FileEntry where
  contentUrl : Option String

/-- Environment of one `get_transcription_result` call: the status document,
the `values` array fetched from the files link, and the `display` fields of
`combinedRecognizedPhrases` of the result file. -/
structure TranscriberEnv where
  statusResponse : TranscriptionStatusResponse
  filesValues : List FileEntry
  combinedRecognizedPhrases : List String

/-- Python falsiness of an optional string (`if not x:`): missing or empty. -/
def optStrFalsy : Option String → Bool
  | none => true
  | some s => s == ""

/-- `BatchTranscriber.get_transcription_result`: raises when the provider
reports status "Failed"; returns `None` when the status is anything other than
"Succeeded", and also when any link needed to reach the result file is missing;
otherwise joins the `display` fields of `combinedRecognizedPhrases` with
newlines.  The activity `check_transcription` in `function_app.py` returns this
value unchanged. -/
def get_transcription_result (env : TranscriberEnv) : Except String (Option String) :=
  let status := env.statusResponse
  if status.status == "Failed" then
    .error ("Transcription failed: " ++ status.error_message)
  else if status.status != "Succeeded" then
    .ok none
  else if optStrFalsy status.files_link then
    .ok none
  else
    match env.filesValues with
    | [] => .ok none
    | f :: _ =>
      if optStrFalsy f.contentUrl then
        .ok none
      else
        .ok (some (String.intercalate "\n" env.combinedRecognizedPhrases))

/-! `AzureAISearchService.index_transcript_chunks` from
`services/search_service.py`. -/

/-- One document uploaded to the search index; the vector type is abstract
(the source carries `List[float]` embeddings opaquely). -/
structure SearchDocument (α : Type) where
  id : String
  content : String
  contentVector : α

/-- The `documents` list built and uploaded by
`AzureAISearchService.index_transcript_chunks`:
`for i, (chunk, embedding) in enumerate(zip(chunks, embeddings))`, each document
being `{"id": f"chunk-{i}", "content": chunk, "contentVector": embedding}`. -/
def index_transcript_chunks {α : Type} (chunks : List String) (embeddings : List α) :
    List (SearchDocument α) :=
  (List.zip chunks embeddings).enum.map
    (fun p => { id := "chunk-" ++ toString p.1, content := p.2.1, contentVector := p.2.2 })

/-! Concrete replay environments used to evaluate the model on closed inputs. -/

/-- Scenario-1 environment: `start_transcription` returns "j1";
`check_transcription` returns null twice, then "hello world"; the clock stays
far below expiry. -/
def scenario1Env : OrchEnv :=
  { file_url := "https://blob/pod.wav"
    podcast_id := "p1"
    start_result := .ok (.jstr "j1")
    check_result := fun n => if n < 2 then .ok .jnull else .ok (.jstr "hello world")
    create_index_result := .ok (.jstr "created")
    index_transcript_result := .ok .jnull
    clock0 := 0
    clockCond := fun n => n
    clockTimer := fun n => n + 1 }

/-- Environment used to instantiate the determinism theorem. -/
def c1WitnessEnv : OrchEnv :=
  { file_url := "https://blob/a.wav"
    podcast_id := "p2"
    start_result := .ok (.jstr "j2")
    check_result := fun n => if n = 0 then .ok .jnull else .ok (.jstr "done")
    create_index_result := .ok .jnull
    index_transcript_result := .ok .jnull
    clock0 := 0
    clockCond := fun n => n
    clockTimer := fun n => n }

/-- Environment in which `check_transcription` keeps returning null and the
history-derived current time passes expiry (clock0 = 0, so expiry = 7200) on
the second evaluation of the loop condition. -/
def c2CexEnv : OrchEnv :=
  { file_url := "https://blob/pod.wav"
    podcast_id := "p1"
    start_result := .ok (.jstr "j1")
    check_result := fun _ => .ok .jnull
    create_index_result := .ok .jnull
    index_transcript_result := .ok .jnull
    clock0 := 0
    clockCond := fun n => if n = 0 then 4000 else 8000
    clockTimer := fun _ => 8000 }

/-- Environment in which `start_transcription` completes with the empty
string. -/
def c3CexEnv : OrchEnv :=
  { file_url := "https://blob/pod.wav"
    podcast_id := "p1"
    start_result := .ok (.jstr "")
    check_result := fun _ => .ok .jnull
    create_index_result := .ok .jnull
    index_transcript_result := .ok .jnull
    clock0 := 0
    clockCond := fun _ => 0
    clockTimer := fun _ => 0 }

/-- Environment in which the loop condition last sees time 7195 (< 7200 =
expiry) but the timer is then scheduled at 7195 + 10 = 7205, past expiry. -/
def c4CexEnv : OrchEnv :=
  { file_url := "https://blob/pod.wav"
    podcast_id := "p1"
    start_result := .ok (.jstr "j1")
    check_result := fun _ => .ok .jnull
    create_index_result := .ok .jnull
    index_transcript_result := .ok .jnull
    clock0 := 0
    clockCond := fun n => if n = 0 then 7195 else 7210
    clockTimer := fun _ => 7195 }

/-- Environment with a frozen clock (so the stability hypothesis of the
amended timer bound holds) in which the first check is null and the second
returns a transcript. -/
def c4WitnessEnv : OrchEnv :=
  { file_url := "https://blob/pod.wav"
    podcast_id := "p1"
    start_result := .ok (.jstr "j1")
    check_result := fun n => if n = 0 then .ok .jnull else .ok (.jstr "hi")
    create_index_result := .ok .jnull
    index_transcript_result := .ok .jnull
    clock0 := 0
    clockCond := fun _ => 0
    clockTimer := fun _ => 0 }

/-- Environment in which the first `check_transcription` call fails
terminally. -/
def c5CexEnv : OrchEnv :=
  { file_url := "https://blob/pod.wav"
    podcast_id := "p1"
    start_result := .ok (.jstr "j1")
    check_result := fun _ => .failed "boom"
    create_index_result := .ok .jnull
    index_transcript_result := .ok .jnull
    clock0 := 0
    clockCond := fun _ => 0
    clockTimer := fun _ => 0 }

/-- Environment whose `check_transcription` results are empty strings (a falsy
transcript that is not null — `get_transcription_result` returns "" when the
provider reports Succeeded with no recognized phrases) and whose clock passes
expiry on the second loop-condition read. -/
def c2WitnessEnv : OrchEnv :=
  { file_url := "https://blob/pod.wav"
    podcast_id := "p1"
    start_result := .ok (.jstr "j1")
    check_result := fun _ => .ok (.jstr "")
    create_index_result := .ok .jnull
    index_transcript_result := .ok .jnull
    clock0 := 0
    clockCond := fun n => if n = 0 then 4000 else 8000
    clockTimer := fun _ => 8000 }

/-- Environment in which `start_transcription` itself fails terminally. -/
def c5StartFailEnv : OrchEnv :=
  { file_url := "https://blob/pod.wav"
    podcast_id := "p1"
    start_result := .failed "speech service unreachable"
    check_result := fun _ => .ok .jnull
    create_index_result := .ok .jnull
    index_transcript_result := .ok .jnull
    clock0 := 0
    clockCond := fun _ => 0
    clockTimer := fun _ => 0 }

/-- Environment in which the transcript is ready at once but
`create_search_index` fails terminally. -/
def c5CreateFailEnv : OrchEnv :=
  { file_url := "https://blob/pod.wav"
    podcast_id := "p1"
    start_result := .ok (.jstr "j1")
    check_result := fun _ => .ok (.jstr "t")
    create_index_result := .failed "index service down"
    index_transcript_result := .ok .jnull
    clock0 := 0
    clockCond := fun _ => 0
    clockTimer := fun _ => 0 }

/-- Environment in which the transcript is ready at once,
`create_search_index` succeeds, but `index_transcript` fails terminally. -/
def c5IndexFailEnv : OrchEnv :=
  { file_url := "https://blob/pod.wav"
    podcast_id := "p1"
    start_result := .ok (.jstr "j1")
    check_result := fun _ => .ok (.jstr "t")
    create_index_result := .ok .jnull
    index_transcript_result := .failed "upload failed"
    clock0 := 0
    clockCond := fun _ => 0
    clockTimer := fun _ => 0 }

/-! Helper lemmas about the polling loop. -/

/-- The polling loop reads nothing outside its environment: two environments
that agree on every history-supplied value it consumes produce identical
results, whatever the loop state. -/
theorem pollLoop_congr (env1 env2 : OrchEnv)
    (hcr : ∀ n, env1.check_result n = env2.check_result n)
    (hci : env1.create_index_result = env2.create_index_result)
    (hit : env1.index_transcript_result = env2.index_transcript_result)
    (hcc : ∀ n, env1.clockCond n = env2.clockCond n)
    (hct : ∀ n, env1.clockTimer n = env2.clockTimer n) :
    ∀ (fuel : Nat) (index_name : String) (tid : JValue) (expiry n : Nat)
      (acc : List Action),
      pollLoop env1 index_name tid expiry n acc fuel =
        pollLoop env2 index_name tid expiry n acc fuel := by
  intro fuel
  induction fuel with
  | zero => intro _ _ _ _ _; rfl
  | succ fuel ih =>
    intro index_name tid expiry n acc
    simp only [pollLoop, hcr, hci, hit, hcc, hct, ih]

/-- C1: the orchestration step function is deterministic — the emitted action
trace and terminal result of `transcribe_and_index_orchestrator` are a pure
function of the values supplied through the context (activity results and
history-derived `current_utc_datetime` reads); two runs over environments that
agree on those values are identical. -/
theorem orchestrator_deterministic (env1 env2 : OrchEnv) (fuel : Nat)
    (hfile : env1.file_url = env2.file_url)
    (hpod : env1.podcast_id = env2.podcast_id)
    (hstart : env1.start_result = env2.start_result)
    (hcr : ∀ n, env1.check_result n = env2.check_result n)
    (hci : env1.create_index_result = env2.create_index_result)
    (hit : env1.index_transcript_result = env2.index_transcript_result)
    (hc0 : env1.clock0 = env2.clock0)
    (hcc : ∀ n, env1.clockCond n = env2.clockCond n)
    (hct : ∀ n, env1.clockTimer n = env2.clockTimer n) :
    transcribe_and_index_orchestrator env1 fuel =
      transcribe_and_index_orchestrator env2 fuel := by
  simp only [transcribe_and_index_orchestrator, hfile, hpod, hstart, hc0,
    pollLoop_congr env1 env2 hcr hci hit hcc hct]

/-- Witness for C1 at a concrete environment. -/
theorem orchestrator_deterministic_witness :
    transcribe_and_index_orchestrator c1WitnessEnv 3 =
      transcribe_and_index_orchestrator c1WitnessEnv 3 :=
  orchestrator_deterministic c1WitnessEnv c1WitnessEnv 3 rfl rfl rfl
    (fun _ => rfl) rfl rfl rfl (fun _ => rfl) (fun _ => rfl)

/-- When every `check_transcription` result is empty or null (any falsy value:
None, "", empty dict), any terminating run of the polling loop completes with
output null (the fall-off-the-loop `return None`). -/
theorem pollLoop_null_out (env : OrchEnv) (index_name : String) (tid : JValue)
    (expiry : Nat)
    (hnull : ∀ n, ∃ v, env.check_result n = .ok v ∧ v.truthy = false) :
    ∀ (fuel n : Nat) (acc trace : List Action) (out : Outcome),
      pollLoop env index_name tid expiry n acc fuel = some (trace, out) →
      out = .completed .jnull := by
  intro fuel
  induction fuel with
  | zero => intro n acc trace out h; simp [pollLoop] at h
  | succ fuel ih =>
    intro n acc trace out h
    obtain ⟨v, hv, hvf⟩ := hnull n
    simp only [pollLoop, hv] at h
    by_cases hlt : env.clockCond n < expiry
    · rw [if_pos hlt] at h
      simp only [hvf, Bool.false_eq_true, if_false] at h
      exact ih (n + 1) _ trace out h
    · rw [if_neg hlt] at h
      simp only [Option.some.injEq, Prod.mk.injEq] at h
      exact h.2.symm

/-- C2 counterexample: with `check_transcription` returning null forever and
the history-derived clock reaching expiry, the orchestrator completes the
instance with output null; it does not end in a failed state with a timeout
message. -/
theorem timeout_completes_null_cex :
    transcribe_and_index_orchestrator c2CexEnv 2 =
      some ([Action.callActivity "start_transcription" (.jstr "https://blob/pod.wav"),
             Action.callActivity "check_transcription" (.jstr "j1"),
             Action.createTimer 8010],
            .completed .jnull) ∧
    Outcome.completed JValue.jnull ≠ Outcome.failed "timed out" := by
  refine ⟨rfl, ?_⟩
  intro h
  exact Outcome.noConfusion h

/-- C2 amended: in every execution in which `start_transcription` yields a
truthy id and `check_transcription` keeps returning empty/null (any falsy
result: None or the empty string), a terminating replay ends with the instance
Completed with output null — the loop exits as soon as a while-condition read
is at or past expiry, and the source schedules no failure and no timeout
message on that path. -/
theorem timeout_completes_null (env : OrchEnv) (fuel : Nat) (tid : JValue)
    (trace : List Action) (out : Outcome)
    (hstart : env.start_result = .ok tid)
    (htid : tid.truthy = true)
    (hnull : ∀ n, ∃ v, env.check_result n = .ok v ∧ v.truthy = false)
    (hrun : transcribe_and_index_orchestrator env fuel = some (trace, out)) :
    out = .completed .jnull := by
  simp only [transcribe_and_index_orchestrator, hstart, htid, if_true] at hrun
  exact pollLoop_null_out env _ tid _ hnull fuel 0 _ trace out hrun

/-- Witness for C2's amended theorem at a concrete environment whose checks
return the empty string (a falsy, non-null transcript). -/
theorem timeout_completes_null_witness :
    transcribe_and_index_orchestrator c2WitnessEnv 2 =
      some ([Action.callActivity "start_transcription" (.jstr "https://blob/pod.wav"),
             Action.callActivity "check_transcription" (.jstr "j1"),
             Action.createTimer 8010],
            .completed .jnull) ∧
    Outcome.completed JValue.jnull = Outcome.completed JValue.jnull :=
  ⟨rfl, timeout_completes_null c2WitnessEnv 2 (.jstr "j1") _ _ rfl rfl
    (fun _ => ⟨.jstr "", rfl, rfl⟩) rfl⟩

/-- C3 counterexample: when `start_transcription` completes with the empty
string, the orchestrator terminates after that single activity with the
instance Completed and output `{"error": "Transcription could not be
started"}` — it does not end in a failed state. -/
theorem start_empty_cex :
    transcribe_and_index_orchestrator c3CexEnv 1 =
      some ([Action.callActivity "start_transcription" (.jstr "https://blob/pod.wav")],
        .completed (errObj "Transcription could not be started")) ∧
    Outcome.completed (errObj "Transcription could not be started") ≠
      Outcome.failed "transcription could not be started" := by
  refine ⟨rfl, ?_⟩
  intro h
  exact Outcome.noConfusion h

/-- C3 amended: for every input on which `start_transcription` completes with
an empty or null result, the orchestrator immediately terminates the instance
— Completed with output `{"error": "Transcription could not be started"}`
(the raised exception is caught by the orchestrator's `except` block) — and
the trace contains only that one activity: zero timers and zero further
activities. -/
theorem start_empty_completes_with_error (env : OrchEnv) (v : JValue) (fuel : Nat)
    (hv : env.start_result = .ok v) (hfalsy : v.truthy = false) :
    transcribe_and_index_orchestrator env fuel =
      some ([Action.callActivity "start_transcription" (JValue.jstr env.file_url)],
        .completed (errObj "Transcription could not be started")) := by
  simp [transcribe_and_index_orchestrator, hv, hfalsy]

/-- Witness for C3's amended theorem at a concrete environment. -/
theorem start_empty_completes_with_error_witness :
    transcribe_and_index_orchestrator c3CexEnv 5 =
      some ([Action.callActivity "start_transcription" (JValue.jstr c3CexEnv.file_url)],
        .completed (errObj "Transcription could not be started")) :=
  start_empty_completes_with_error c3CexEnv (.jstr "") 5 rfl rfl

/-- C5 counterexample: a terminal `check_transcription` failure ("boom") ends
the run as a Completed instance whose output carries the error —
`{"error": "boom"}` — contradicting the claim that an activity failure never
ends as a Completed instance carrying the error in its return payload. -/
theorem activity_failure_completed_payload_cex :
    transcribe_and_index_orchestrator c5CexEnv 1 =
      some ([Action.callActivity "start_transcription" (.jstr "https://blob/pod.wav"),
             Action.callActivity "check_transcription" (.jstr "j1")],
        .completed (errObj "boom")) ∧
    Outcome.completed (errObj "boom") ≠ Outcome.failed "boom" := by
  refine ⟨rfl, ?_⟩
  intro h
  exact Outcome.noConfusion h

/-- Advancing the polling loop through `steps` iterations whose checks are
falsy and whose condition reads are below expiry: the loop reaches iteration
`k + steps` with some accumulated action list. -/
theorem pollLoop_advance (env : OrchEnv) (index_name : String) (tid : JValue)
    (expiry : Nat) :
    ∀ (steps fuel k : Nat) (acc : List Action),
      (∀ m, m < steps → ∃ v, env.check_result (k + m) = .ok v ∧ v.truthy = false) →
      (∀ m, m < steps → env.clockCond (k + m) < expiry) →
      ∃ acc', pollLoop env index_name tid expiry k acc (fuel + steps) =
        pollLoop env index_name tid expiry (k + steps) acc' fuel := by
  intro steps
  induction steps with
  | zero => intro fuel k acc _ _; exact ⟨acc, rfl⟩
  | succ steps ih =>
    intro fuel k acc hfalsy hclock
    obtain ⟨v, hv, hvf⟩ := hfalsy 0 (Nat.succ_pos steps)
    rw [Nat.add_zero] at hv
    have hc0 := hclock 0 (Nat.succ_pos steps)
    rw [Nat.add_zero] at hc0
    have h1 : pollLoop env index_name tid expiry k acc (fuel + (steps + 1)) =
        pollLoop env index_name tid expiry (k + 1)
          (Action.createTimer (env.clockTimer k + 10) ::
            Action.callActivity "check_transcription" tid :: acc) (fuel + steps) := by
      show pollLoop env index_name tid expiry k acc ((fuel + steps) + 1) = _
      simp only [pollLoop]
      rw [if_pos hc0]
      simp only [hv, hvf, Bool.false_eq_true, if_false]
    obtain ⟨acc', hacc⟩ := ih fuel (k + 1)
      (Action.createTimer (env.clockTimer k + 10) ::
        Action.callActivity "check_transcription" tid :: acc)
      (fun m hm => by
        have h2 := hfalsy (m + 1) (Nat.succ_lt_succ hm)
        rwa [show k + (m + 1) = k + 1 + m by omega] at h2)
      (fun m hm => by
        have h2 := hclock (m + 1) (Nat.succ_lt_succ hm)
        rwa [show k + (m + 1) = k + 1 + m by omega] at h2)
    refine ⟨acc', ?_⟩
    rw [h1, hacc, show k + 1 + steps = k + (steps + 1) by omega]

/-- C5 amended: when an activity fails terminally (its retry policy, if any,
is exhausted and the `yield` re-raises), both orchestrators catch the
exception and complete the instance with output `{"error": message}`: the
instance ends Completed with the error surfaced in its return payload, not in
Failed status.  The conjuncts cover every activity either orchestrator calls:
`process_rag_query`, `start_transcription`, and — at whichever loop iteration
is reached — `check_transcription`, `create_search_index`, and
`index_transcript`. -/
theorem activity_failure_completes_with_error :
    (∀ (env : RagEnv) (e : String), env.rag_result = .failed e →
      rag_query_orchestrator env =
        ([Action.callActivityWithRetry "process_rag_query" rag_retry_options
            (.jobj [("query", .jstr env.query), ("filters", env.filters),
                    ("index_name", env.index_name)])],
         .completed (errObj e))) ∧
    (∀ (env : OrchEnv) (e : String) (fuel : Nat), env.start_result = .failed e →
      transcribe_and_index_orchestrator env fuel =
        some ([Action.callActivity "start_transcription" (.jstr env.file_url)],
          .completed (errObj e))) ∧
    (∀ (env : OrchEnv) (tid : JValue) (n0 fuel : Nat) (e : String),
      env.start_result = .ok tid → tid.truthy = true →
      (∀ m, m < n0 → ∃ v, env.check_result m = .ok v ∧ v.truthy = false) →
      (∀ m, m ≤ n0 → env.clockCond m < env.clock0 + 7200) →
      env.check_result n0 = .failed e →
      n0 < fuel →
      ∃ trace, transcribe_and_index_orchestrator env fuel =
        some (trace, .completed (errObj e))) ∧
    (∀ (env : OrchEnv) (tid : JValue) (n0 fuel : Nat) (e : String) (v : JValue),
      env.start_result = .ok tid → tid.truthy = true →
      (∀ m, m < n0 → ∃ w, env.check_result m = .ok w ∧ w.truthy = false) →
      (∀ m, m ≤ n0 → env.clockCond m < env.clock0 + 7200) →
      env.check_result n0 = .ok v → v.truthy = true →
      env.create_index_result = .failed e →
      n0 < fuel →
      ∃ trace, transcribe_and_index_orchestrator env fuel =
        some (trace, .completed (errObj e))) ∧
    (∀ (env : OrchEnv) (tid : JValue) (n0 fuel : Nat) (e : String) (v w : JValue),
      env.start_result = .ok tid → tid.truthy = true →
      (∀ m, m < n0 → ∃ u, env.check_result m = .ok u ∧ u.truthy = false) →
      (∀ m, m ≤ n0 → env.clockCond m < env.clock0 + 7200) →
      env.check_result n0 = .ok v → v.truthy = true →
      env.create_index_result = .ok w →
      env.index_transcript_result = .failed e →
      n0 < fuel →
      ∃ trace, transcribe_and_index_orchestrator env fuel =
        some (trace, .completed (errObj e))) := by
  refine ⟨?_, ?_, ?_, ?_, ?_⟩
  · intro env e h
    simp [rag_query_orchestrator, h]
  · intro env e fuel h
    simp [transcribe_and_index_orchestrator, h]
  · intro env tid n0 fuel e hstart htid hfalsy hclock hfail hfuel
    simp only [transcribe_and_index_orchestrator, hstart, htid, if_true]
    obtain ⟨acc', heq⟩ := pollLoop_advance env (get_index_name env.podcast_id) tid
      (env.clock0 + 7200) n0 (fuel - n0) 0
      [Action.callActivity "start_transcription" (JValue.jstr env.file_url)]
      (fun m hm => by simpa using hfalsy m hm)
      (fun m hm => by simpa using hclock m (Nat.le_of_lt hm))
    rw [show fuel = (fuel - n0) + n0 by omega, heq, Nat.zero_add]
    obtain ⟨f2, hf2⟩ : ∃ f2, fuel - n0 = f2 + 1 := ⟨fuel - n0 - 1, by omega⟩
    rw [hf2]
    simp only [pollLoop]
    rw [if_pos (hclock n0 le_rfl)]
    simp only [hfail]
    exact ⟨_, rfl⟩
  · intro env tid n0 fuel e v hstart htid hfalsy hclock hcheck htv hci hfuel
    simp only [transcribe_and_index_orchestrator, hstart, htid, if_true]
    obtain ⟨acc', heq⟩ := pollLoop_advance env (get_index_name env.podcast_id) tid
      (env.clock0 + 7200) n0 (fuel - n0) 0
      [Action.callActivity "start_transcription" (JValue.jstr env.file_url)]
      (fun m hm => by simpa using hfalsy m hm)
      (fun m hm => by simpa using hclock m (Nat.le_of_lt hm))
    rw [show fuel = (fuel - n0) + n0 by omega, heq, Nat.zero_add]
    obtain ⟨f2, hf2⟩ : ∃ f2, fuel - n0 = f2 + 1 := ⟨fuel - n0 - 1, by omega⟩
    rw [hf2]
    simp only [pollLoop]
    rw [if_pos (hclock n0 le_rfl)]
    simp only [hcheck, htv, if_true, hci]
    exact ⟨_, rfl⟩
  · intro env tid n0 fuel e v w hstart htid hfalsy hclock hcheck htv hcok hif hfuel
    simp only [transcribe_and_index_orchestrator, hstart, htid, if_true]
    obtain ⟨acc', heq⟩ := pollLoop_advance env (get_index_name env.podcast_id) tid
      (env.clock0 + 7200) n0 (fuel - n0) 0
      [Action.callActivity "start_transcription" (JValue.jstr env.file_url)]
      (fun m hm => by simpa using hfalsy m hm)
      (fun m hm => by simpa using hclock m (Nat.le_of_lt hm))
    rw [show fuel = (fuel - n0) + n0 by omega, heq, Nat.zero_add]
    obtain ⟨f2, hf2⟩ : ∃ f2, fuel - n0 = f2 + 1 := ⟨fuel - n0 - 1, by omega⟩
    rw [hf2]
    simp only [pollLoop]
    rw [if_pos (hclock n0 le_rfl)]
    simp only [hcheck, htv, if_true, hcok, hif]
    exact ⟨_, rfl⟩

/-- Witness for C5's amended theorem: one concrete environment per failing
activity, each discharged through the corresponding conjunct. -/
theorem activity_failure_completes_with_error_witness :
    rag_query_orchestrator ⟨"q", .jnull, .jnull, .failed "search down"⟩ =
      ([Action.callActivityWithRetry "process_rag_query" rag_retry_options
          (.jobj [("query", .jstr "q"), ("filters", .jnull), ("index_name", .jnull)])],
       .completed (errObj "search down")) ∧
    transcribe_and_index_orchestrator c5StartFailEnv 1 =
      some ([Action.callActivity "start_transcription" (.jstr c5StartFailEnv.file_url)],
        .completed (errObj "speech service unreachable")) ∧
    (∃ trace, transcribe_and_index_orchestrator c5CexEnv 1 =
      some (trace, .completed (errObj "boom"))) ∧
    (∃ trace, transcribe_and_index_orchestrator c5CreateFailEnv 1 =
      some (trace, .completed (errObj "index service down"))) ∧
    (∃ trace, transcribe_and_index_orchestrator c5IndexFailEnv 1 =
      some (trace, .completed (errObj "upload failed"))) :=
  ⟨activity_failure_completes_with_error.1 ⟨"q", .jnull, .jnull, .failed "search down"⟩
      "search down" rfl,
   activity_failure_completes_with_error.2.1 c5StartFailEnv
      "speech service unreachable" 1 rfl,
   activity_failure_completes_with_error.2.2.1 c5CexEnv (.jstr "j1") 0 1 "boom"
      rfl rfl (fun m hm => absurd hm (Nat.not_lt_zero m))
      (fun m _ => (by decide : (0 : Nat) < 0 + 7200)) rfl (by decide),
   activity_failure_completes_with_error.2.2.2.1 c5CreateFailEnv (.jstr "j1") 0 1
      "index service down" (.jstr "t") rfl rfl
      (fun m hm => absurd hm (Nat.not_lt_zero m))
      (fun m _ => (by decide : (0 : Nat) < 0 + 7200)) rfl rfl rfl (by decide),
   activity_failure_completes_with_error.2.2.2.2 c5IndexFailEnv (.jstr "j1") 0 1
      "upload failed" (.jstr "t") JValue.jnull rfl rfl
      (fun m hm => absurd hm (Nat.not_lt_zero m))
      (fun m _ => (by decide : (0 : Nat) < 0 + 7200)) rfl rfl rfl rfl (by decide)⟩

/-- Timers scheduled by the polling loop: when the history-derived current
time does not advance between the loop-condition read and the `next_check`
computation of the same iteration, every timer in the result trace fires
strictly before `expiry + 10`, provided the timers accumulated so far already
do. -/
theorem pollLoop_timer_bound (env : OrchEnv) (index_name : String) (tid : JValue)
    (expiry : Nat)
    (hstable : ∀ n, env.clockTimer n = env.clockCond n) :
    ∀ (fuel n : Nat) (acc trace : List Action) (out : Outcome) (t : Nat),
      (∀ u, Action.createTimer u ∈ acc → u < expiry + 10) →
      pollLoop env index_name tid expiry n acc fuel = some (trace, out) →
      Action.createTimer t ∈ trace → t < expiry + 10 := by
  intro fuel
  induction fuel with
  | zero => intro n acc trace out t hacc h hmem; simp [pollLoop] at h
  | succ fuel ih =>
    intro n acc trace out t hacc h hmem
    simp only [pollLoop] at h
    by_cases hlt : env.clockCond n < expiry
    · rw [if_pos hlt] at h
      cases hcr : env.check_result n with
      | failed e =>
        simp only [hcr] at h
        simp only [Option.some.injEq, Prod.mk.injEq] at h
        rw [← h.1, List.mem_reverse, List.mem_cons] at hmem
        rcases hmem with hmem | hmem
        · exact absurd hmem (by simp)
        · exact hacc t hmem
      | ok transcript =>
        simp only [hcr] at h
        by_cases htr : transcript.truthy
        · rw [if_pos htr] at h
          cases hci : env.create_index_result with
          | failed e =>
            simp only [hci] at h
            simp only [Option.some.injEq, Prod.mk.injEq] at h
            rw [← h.1, List.mem_reverse, List.mem_cons, List.mem_cons] at hmem
            rcases hmem with hmem | hmem | hmem
            · exact absurd hmem (by simp)
            · exact absurd hmem (by simp)
            · exact hacc t hmem
          | ok w =>
            simp only [hci] at h
            cases hit : env.index_transcript_result with
            | failed e =>
              simp only [hit] at h
              simp only [Option.some.injEq, Prod.mk.injEq] at h
              rw [← h.1, List.mem_reverse, List.mem_cons, List.mem_cons,
                List.mem_cons] at hmem
              rcases hmem with hmem | hmem | hmem | hmem
              · exact absurd hmem (by simp)
              · exact absurd hmem (by simp)
              · exact absurd hmem (by simp)
              · exact hacc t hmem
            | ok w2 =>
              simp only [hit] at h
              simp only [Option.some.injEq, Prod.mk.injEq] at h
              rw [← h.1, List.mem_reverse, List.mem_cons, List.mem_cons,
                List.mem_cons] at hmem
              rcases hmem with hmem | hmem | hmem | hmem
              · exact absurd hmem (by simp)
              · exact absurd hmem (by simp)
              · exact absurd hmem (by simp)
              · exact hacc t hmem
        · rw [if_neg htr] at h
          refine ih (n + 1) _ trace out t ?_ h hmem
          intro u hu
          rw [List.mem_cons, List.mem_cons] at hu
          rcases hu with hu | hu | hu
          · have : u = env.clockTimer n + 10 := by
              injection hu
            rw [this, hstable n]
            omega
          · exact absurd hu (by simp)
          · exact hacc u hu
    · rw [if_neg hlt] at h
      simp only [Option.some.injEq, Prod.mk.injEq] at h
      rw [← h.1, List.mem_reverse] at hmem
      exact hacc t hmem

/-- C4 counterexample: with expiry = 7200 (clock0 = 0), a loop-condition read
of 7195 passes the `while` test, yet the timer is then scheduled to fire at
7205 — after expiry — so the engine does schedule a timer firing after start
time + 2 hours. -/
theorem timer_fire_bound_cex :
    transcribe_and_index_orchestrator c4CexEnv 2 =
      some ([Action.callActivity "start_transcription" (.jstr "https://blob/pod.wav"),
             Action.callActivity "check_transcription" (.jstr "j1"),
             Action.createTimer 7205],
            .completed .jnull) ∧
    ¬ 7205 ≤ c4CexEnv.clock0 + 7200 := by
  exact ⟨rfl, by decide⟩

/-- C4 amended: each timer is scheduled for the history-derived current time
at its creation plus 10 seconds, and only after a loop-condition read strictly
below expiry; therefore, whenever the current time does not advance between
that read and the timer's creation, every scheduled timer fires strictly
before expiry + 10 seconds (but, as the counterexample shows, possibly after
expiry itself). -/
theorem timer_fire_bound (env : OrchEnv) (fuel : Nat) (trace : List Action)
    (out : Outcome) (t : Nat)
    (hstable : ∀ n, env.clockTimer n = env.clockCond n)
    (hrun : transcribe_and_index_orchestrator env fuel = some (trace, out))
    (hmem : Action.createTimer t ∈ trace) :
    t < env.clock0 + 7200 + 10 := by
  simp only [transcribe_and_index_orchestrator] at hrun
  cases hs : env.start_result with
  | failed e =>
    simp only [hs] at hrun
    simp only [Option.some.injEq, Prod.mk.injEq] at hrun
    rw [← hrun.1] at hmem
    exact absurd hmem (by simp)
  | ok tid =>
    simp only [hs] at hrun
    by_cases htid : tid.truthy
    · rw [if_pos htid] at hrun
      refine pollLoop_timer_bound env _ tid (env.clock0 + 7200) hstable fuel 0 _
        trace out t ?_ hrun hmem
      intro u hu
      exact absurd hu (by simp)
    · rw [if_neg htid] at hrun
      simp only [Option.some.injEq, Prod.mk.injEq] at hrun
      rw [← hrun.1] at hmem
      exact absurd hmem (by simp)

/-- Witness for C4's amended theorem at a concrete frozen-clock environment. -/
theorem timer_fire_bound_witness :
    10 < c4WitnessEnv.clock0 + 7200 + 10 :=
  timer_fire_bound c4WitnessEnv 2
    [Action.callActivity "start_transcription" (.jstr "https://blob/pod.wav"),
     Action.callActivity "check_transcription" (.jstr "j1"),
     Action.createTimer 10,
     Action.callActivity "check_transcription" (.jstr "j1"),
     Action.callActivity "create_search_index" (.jstr "p1-index"),
     Action.callActivity "index_transcript"
       (.jobj [("index_name", .jstr "p1-index"), ("transcript", .jstr "hi")])]
    (.completed (.jobj [("index_name", .jstr "p1-index")])) 10
    (fun _ => rfl) rfl (by simp)

/-- An always-failing sequence of attempts uses exactly its full invocation
budget and surfaces failure. -/
theorem retryRun_const_false :
    ∀ (k : Nat) (f : Nat → Bool), (∀ i, f i = false) → retryRun f k = (k, false) := by
  intro k
  induction k with
  | zero => intro f hf; rfl
  | succ k ih =>
    intro f hf
    simp only [retryRun, hf 0, Bool.false_eq_true, if_false,
      ih (fun i => f (i + 1)) (fun i => hf (i + 1))]

/-- C6: `rag_query_orchestrator` invokes `process_rag_query` under a retry
policy of exactly max 3 attempts with a fixed first retry interval of 3000
milliseconds, for every query; and (retry executor modelled from the spec) an
always-transiently-failing activity under that policy is invoked exactly 3
times before its failure is surfaced. -/
theorem rag_retry_policy :
    rag_retry_options.max_number_of_attempts = 3 ∧
    rag_retry_options.first_retry_interval_in_milliseconds = 3000 ∧
    (∀ env : RagEnv, (rag_query_orchestrator env).1 =
      [Action.callActivityWithRetry "process_rag_query" rag_retry_options
        (.jobj [("query", .jstr env.query), ("filters", env.filters),
                ("index_name", env.index_name)])]) ∧
    (∀ attempt : Nat → Bool, (∀ i, attempt i = false) →
      retryRun attempt rag_retry_options.max_number_of_attempts = (3, false)) := by
  refine ⟨rfl, rfl, ?_, ?_⟩
  · intro env
    cases h : env.rag_result <;> simp [rag_query_orchestrator, h]
  · intro attempt hfail
    exact retryRun_const_false 3 attempt hfail

/-- Witness for C6 at a concrete always-failing attempt sequence. -/
theorem rag_retry_policy_witness :
    retryRun (fun _ => false) rag_retry_options.max_number_of_attempts = (3, false) :=
  rag_retry_policy.2.2.2 (fun _ => false) (fun _ => rfl)

/-- C7: an upload request with no file and a query request with no query
string are rejected synchronously with a 400 response, with an empty side
effect list: no storage upload is performed and `start_new` is never called on
the validation-failure path. -/
theorem validation_rejected_before_effects :
    (∀ (env : UploadEnv) (req : UploadRequest), req.file = none →
      upload_podcast env req = (.http (errObj "No file uploaded") 400, [])) ∧
    (∀ (env : QueryEnv) (req : QueryRequest) (body : List (String × JValue)),
      req.body = some body → (dictGet body "query").truthy = false →
      query_podcasts env req = (.http (errObj "No query provided") 400, [])) := by
  constructor
  · intro env req h
    simp [upload_podcast, h]
  · intro env req body hb hq
    simp [query_podcasts, hb, hq]

/-- Witness for C7 at concrete requests. -/
theorem validation_rejected_before_effects_witness :
    upload_podcast ⟨"20240101-000000", "https://blob/x", "i1"⟩ ⟨none⟩ =
      (.http (errObj "No file uploaded") 400, []) ∧
    query_podcasts ⟨"i2", "bad json"⟩ ⟨some [("index_name", .jstr "p1-index")]⟩ =
      (.http (errObj "No query provided") 400, []) :=
  ⟨validation_rejected_before_effects.1 ⟨"20240101-000000", "https://blob/x", "i1"⟩ ⟨none⟩ rfl,
   validation_rejected_before_effects.2 ⟨"i2", "bad json"⟩
     ⟨some [("index_name", .jstr "p1-index")]⟩ [("index_name", .jstr "p1-index")] rfl rfl⟩

/-- C8: `get_transcription_result` (the body of the `check_transcription`
activity) distinguishes not-ready from failed: it raises with the provider's
failure message exactly when the provider-reported status is "Failed", and for
any status that is neither "Failed" nor "Succeeded" (a merely-unfinished job)
it returns None without raising. -/
theorem check_transcription_status_dispatch (env : TranscriberEnv) :
    (env.statusResponse.status = "Failed" →
      get_transcription_result env =
        .error ("Transcription failed: " ++ env.statusResponse.error_message)) ∧
    (env.statusResponse.status ≠ "Failed" → env.statusResponse.status ≠ "Succeeded" →
      get_transcription_result env = .ok none) ∧
    (∀ e, get_transcription_result env = .error e →
      env.statusResponse.status = "Failed") := by
  refine ⟨?_, ?_, ?_⟩
  · intro h
    simp [get_transcription_result, h]
  · intro hF hS
    simp [get_transcription_result, hF, hS]
  · intro e h
    by_contra hne
    simp only [get_transcription_result] at h
    rw [if_neg (by simpa using hne)] at h
    split at h
    · exact Except.noConfusion h
    · split at h
      · exact Except.noConfusion h
      · split at h
        · exact Except.noConfusion h
        · split at h
          · exact Except.noConfusion h
          · exact Except.noConfusion h

/-- Witness for C8 at concrete provider responses. -/
theorem check_transcription_status_dispatch_witness :
    get_transcription_result ⟨⟨"Failed", "bad audio", none⟩, [], []⟩ =
      .error ("Transcription failed: " ++ "bad audio") ∧
    get_transcription_result ⟨⟨"Running", "", none⟩, [], []⟩ = .ok none :=
  ⟨(check_transcription_status_dispatch ⟨⟨"Failed", "bad audio", none⟩, [], []⟩).1 rfl,
   (check_transcription_status_dispatch ⟨⟨"Running", "", none⟩, [], []⟩).2.1
     (by decide) (by decide)⟩

/-- C9: in the execution where `start_transcription` completes with "j1" and
`check_transcription` returns null twice and then "hello world", the
orchestrator emits exactly two timers (one after each null), then schedules
`create_search_index` followed by `index_transcript` with the transcript
"hello world" propagated into the `index_transcript` input, and terminates by
completing the instance. -/
theorem scenario1_trace :
    transcribe_and_index_orchestrator scenario1Env 10 =
      some ([Action.callActivity "start_transcription" (.jstr "https://blob/pod.wav"),
             Action.callActivity "check_transcription" (.jstr "j1"),
             Action.createTimer 11,
             Action.callActivity "check_transcription" (.jstr "j1"),
             Action.createTimer 12,
             Action.callActivity "check_transcription" (.jstr "j1"),
             Action.callActivity "create_search_index" (.jstr "p1-index"),
             Action.callActivity "index_transcript"
               (.jobj [("index_name", .jstr "p1-index"),
                       ("transcript", .jstr "hello world")])],
            .completed (.jobj [("index_name", .jstr "p1-index")])) ∧
    List.countP
        (fun a => match a with | Action.createTimer _ => true | _ => false)
        [Action.callActivity "start_transcription" (.jstr "https://blob/pod.wav"),
         Action.callActivity "check_transcription" (.jstr "j1"),
         Action.createTimer 11,
         Action.callActivity "check_transcription" (.jstr "j1"),
         Action.createTimer 12,
         Action.callActivity "check_transcription" (.jstr "j1"),
         Action.callActivity "create_search_index" (.jstr "p1-index"),
         Action.callActivity "index_transcript"
           (.jobj [("index_name", .jstr "p1-index"),
                   ("transcript", .jstr "hello world")])] = 2 :=
  ⟨rfl, rfl⟩

/-- C10: `index_transcript_chunks` uploads exactly
min (length chunks) (length embeddings) documents; the i-th document is
`{"id": "chunk-i", "content": chunks[i], "contentVector": embeddings[i]}`; and
the uploaded ids are "chunk-0", "chunk-1", ... — a function of position alone,
so indexing a second transcript into the same index reuses the same ids. -/
theorem index_chunks_docs {α : Type} (chunks : List String) (embeddings : List α) :
    (index_transcript_chunks chunks embeddings).length =
      min chunks.length embeddings.length ∧
    (∀ (i : Nat) (c : String) (e : α),
      chunks.get? i = some c → embeddings.get? i = some e →
      (index_transcript_chunks chunks embeddings).get? i =
        some { id := "chunk-" ++ toString i, content := c, contentVector := e }) ∧
    (index_transcript_chunks chunks embeddings).map SearchDocument.id =
      (List.range (min chunks.length embeddings.length)).map
        (fun i => "chunk-" ++ toString i) := by
  have hlen : (index_transcript_chunks chunks embeddings).length =
      min chunks.length embeddings.length := by
    simp [index_transcript_chunks, List.enum_length, List.length_zip]
  refine ⟨hlen, ?_, ?_⟩
  · intro i c e hc he
    have hci : i < chunks.length := by
      rcases List.get?_eq_some.mp hc with ⟨h, _⟩
      exact h
    have hei : i < embeddings.length := by
      rcases List.get?_eq_some.mp he with ⟨h, _⟩
      exact h
    have hi : i < (index_transcript_chunks chunks embeddings).length := by
      rw [hlen]
      exact lt_min hci hei
    rw [List.get?_eq_get hi]
    simp only [List.get_eq_getElem, index_transcript_chunks, List.getElem_map,
      List.getElem_enum, List.getElem_zip, Option.some.injEq]
    have hc' : chunks[i] = c := by
      have := List.get?_eq_getElem? chunks i
      rw [hc, List.getElem?_eq_getElem hci] at this
      exact (Option.some.inj this).symm
    have he' : embeddings[i] = e := by
      have := List.get?_eq_getElem? embeddings i
      rw [he, List.getElem?_eq_getElem hei] at this
      exact (Option.some.inj this).symm
    rw [hc', he']
  · refine List.ext_getElem ?_ ?_
    · simp [hlen, List.length_range]
    · intro n h1 h2
      simp only [List.getElem_map, index_transcript_chunks, List.getElem_enum,
        List.getElem_zip, List.getElem_range]

/-- Witness for C10 at concrete chunk and embedding lists of different
lengths. -/
theorem index_chunks_docs_witness :
    (index_transcript_chunks ["a", "b"] ([10, 20, 30] : List Nat)).length =
      min (["a", "b"] : List String).length ([10, 20, 30] : List Nat).length ∧
    (index_transcript_chunks ["a", "b"] ([10, 20, 30] : List Nat)).get? 1 =
      some { id := "chunk-" ++ toString 1, content := "b", contentVector := 20 } :=
  ⟨(index_chunks_docs ["a", "b"] ([10, 20, 30] : List Nat)).1,
   (index_chunks_docs ["a", "b"] ([10, 20, 30] : List Nat)).2.1 1 "b" 20 rfl rfl⟩

end PodcastBackend
